import Mathlib

/-!
Shallow embedding of the crash-and-panic capture integration in `src/panic.rs`
(panic payload message extraction, the extractor chain, the default event
builder, the dump-capture strategy, the panic handler dispatch path, the
once-guarded hook installation, and the segmentation-fault signal handler),
together with theorems settling the specification claims about it.
-/

namespace SentryTauri

/-- Shapes of a panic payload distinguished by `message_from_panic_info`:
a static string slice, an owned string, or any other boxed payload. -/
inductive PanicPayload where
  | staticStr (s : String)
  | ownedString (s : String)
  | other
deriving DecidableEq

/-- Model of `std::panic::PanicInfo`: the downcastable payload. -/
structure PanicInfo where
  payload : PanicPayload
deriving DecidableEq

/-- Model of the result of `sentry_backtrace::current_stacktrace()`,
an external stack-walking utility treated as opaque frame data. -/
abbrev Stacktrace := List String

/-- Severity level, `sentry::protocol::Level`. -/
inductive Level where
  | debug
  | info
  | warning
  | error
  | fatal
deriving DecidableEq

/-- Model of `sentry::protocol::Mechanism` restricted to the fields the
integration sets: `ty` and `handled`. -/
structure Mechanism where
  ty : String
  handled : Option Bool
deriving DecidableEq

/-- Model of `sentry::protocol::Exception` restricted to the fields the
integration sets: `ty`, `mechanism`, `value`, `stacktrace`. -/
structure Exception where
  ty : String
  mechanism : Option Mechanism
  value : Option String
  stacktrace : Option Stacktrace
deriving DecidableEq

/-- Model of `sentry::protocol::Event` restricted to the fields the
integration sets: the exception list and the severity level. -/
structure Event where
  exception : List Exception
  level : Level
deriving DecidableEq

/-- The `PanicExtractor` type: a function from panic info to an optional event. -/
abbrev PanicExtractor := PanicInfo → Option Event

/-- The `PanicIntegration` struct: an ordered list of registered extractors. -/
structure PanicIntegration where
  extractors : List PanicExtractor

/-- Embeds `message_from_panic_info`: downcast to a static string, else to an
owned string, else substitute the fixed placeholder. -/
def message_from_panic_info (info : PanicInfo) : String :=
  match info.payload with
  | PanicPayload.staticStr s => s
  | PanicPayload.ownedString s => s
  | PanicPayload.other => "Box<Any>"

/-- The extractor loop at the head of `event_from_panic_info`: evaluate the
extractors in order and return the first non-empty result. -/
def runExtractors : List PanicExtractor → PanicInfo → Option Event
  | [], _ => none
  | f :: fs, info =>
    match f info with
    | some event => some event
    | none => runExtractors fs info

/-- The default event built by `event_from_panic_info` when every extractor
returned empty: a single exception tagged "panic", mechanism "panic" with
`handled = false`, the extracted message as value, the current stacktrace,
level fatal. -/
def default_panic_event (cur : Option Stacktrace) (info : PanicInfo) : Event :=
  { exception :=
      [{ ty := "panic",
         mechanism := some { ty := "panic", handled := some false },
         value := some (message_from_panic_info info),
         stacktrace := cur }],
    level := Level.fatal }

/-- Embeds `PanicIntegration::event_from_panic_info`: run the extractor chain,
return the first non-empty result, otherwise build the default event.
`cur` is the result of the external `current_stacktrace()` call. -/
def event_from_panic_info (integ : PanicIntegration) (cur : Option Stacktrace)
    (info : PanicInfo) : Event :=
  match runExtractors integ.extractors info with
  | some event => event
  | none => default_panic_event cur info

/-- Model of `sentry::protocol::AttachmentType` restricted to the variant used. -/
inductive AttachmentType where
  | minidump
deriving DecidableEq

/-- Model of `sentry::protocol::Attachment` restricted to the fields the
integration sets: buffer, filename, type tag. -/
structure Attachment where
  buffer : List Nat
  filename : String
  ty : Option AttachmentType
deriving DecidableEq

/-- Model of the filesystem as a write log of (path, content) pairs;
the most recent write to a path is the file's current content. -/
abbrev FileSystem := List (String × List Nat)

/-- Writing a file: push the new content; it shadows prior writes to the path. -/
def fsWrite (fs : FileSystem) (p : String) (c : List Nat) : FileSystem :=
  (p, c) :: fs

/-- Reading a file: the most recent write to the path, if any. -/
def fsRead : FileSystem → String → Option (List Nat)
  | [], _ => none
  | (q, c) :: rest, p => if q = p then some c else fsRead rest p

/-- Embeds `get_dump_fn`: the dump path is the system temp dir joined with
`dump_<pid>.mdmp`. -/
def get_dump_fn (temp_dir : String) (pid : Nat) : String :=
  temp_dir ++ "/dump_" ++ toString pid ++ ".mdmp"

/-- Environment of `write_minidump`: the system temp dir, the process id,
whether `File::create` succeeds, and the bytes the platform dump API
produces (`none` models a dump-API error). -/
structure DumpEnv where
  temp_dir : String
  pid : Nat
  createOk : Bool
  dumpResult : Option (List Nat)

/-- Embeds `write_minidump` (common shape of the three platform variants):
create (truncate) the file at `get_dump_fn`, have the platform dump API write
the minidump bytes into it, and return the path together with the in-memory
bytes; any failure yields no result. The updated filesystem is returned so
the on-disk effect is tracked. -/
def write_minidump (env : DumpEnv) (fs : FileSystem) :
    FileSystem × Option (String × List Nat) :=
  if env.createOk then
    let dump_fn := get_dump_fn env.temp_dir env.pid
    let fs1 := fsWrite fs dump_fn []
    match env.dumpResult with
    | some bytes => (fsWrite fs1 dump_fn bytes, some (dump_fn, bytes))
    | none => (fs1, none)
  else (fs, none)

/-- Model of the current hub as seen by `sentry::with_integration`: whether a
`PanicIntegration` is bound, and whether a client is bound. -/
structure Hub where
  integration : Option PanicIntegration
  hasClient : Bool

/-- An event as dispatched to the sink, paired with the attachments the
enclosing scope carried. -/
structure DispatchedEvent where
  event : Event
  attachments : List Attachment

/-- Observable outcome of one `panic_handler` run: the filesystem afterwards,
the events captured, and whether a flush was requested. -/
structure HandlerResult where
  fs : FileSystem
  captured : List DispatchedEvent
  flushed : Bool

/-- Embeds `panic_handler`: under `with_integration`, run the scope closure
(attempt `write_minidump`; on success add a minidump attachment to the scope,
on failure return early leaving the scope without attachments), capture the
event built by `event_from_panic_info` inside that scope, then flush if the
hub has a client. If no `PanicIntegration` is bound, the closure never runs. -/
def panic_handler (hub : Hub) (env : DumpEnv) (cur : Option Stacktrace)
    (fs : FileSystem) (info : PanicInfo) : HandlerResult :=
  match hub.integration with
  | none => { fs := fs, captured := [], flushed := false }
  | some integ =>
    let wres := write_minidump env fs
    let atts : List Attachment :=
      match wres.2 with
      | none => []
      | some pb =>
        [{ buffer := pb.2, filename := pb.1,
           ty := some AttachmentType.minidump }]
    { fs := wres.1,
      captured :=
        [{ event := event_from_panic_info integ cur info,
           attachments := atts }],
      flushed := hub.hasClient }

/-- Observable steps of a panic hook invocation: the integration handler ran
with a given result, or the previously registered hook was invoked with given
panic info. -/
inductive Trace where
  | core (r : HandlerResult)
  | prev (info : PanicInfo)

/-- Whether a trace step is a run of the integration handler. -/
def Trace.isCore : Trace → Bool
  | Trace.core _ => true
  | Trace.prev _ => false

/-- Embeds the closure installed by `setup`:
run `panic_handler` on the info, then invoke the previous hook `next` with
the same info. Hooks are modelled as trace-producing functions. -/
def install_hook (hub : Hub) (env : DumpEnv) (cur : Option Stacktrace)
    (fs : FileSystem) (next : PanicInfo → List Trace) : PanicInfo → List Trace :=
  fun info => Trace.core (panic_handler hub env cur fs info) :: next info

/-- A test probe standing for the previously registered hook: it records each
invocation together with the panic info it received. -/
def probe_hook : PanicInfo → List Trace :=
  fun info => [Trace.prev info]

/-- Installation state of the process-wide `INIT: Once` guard. -/
inductive InstallState where
  | uninitialized
  | installed
deriving DecidableEq

/-- One `setup` call under `INIT.call_once` semantics: the body (which wraps
the panic hook and registers the signal handler) runs only when the state is
uninitialized; the counter records how many times the body really ran. -/
def setup_step : InstallState × Nat → InstallState × Nat
  | (InstallState.uninitialized, k) => (InstallState.installed, k + 1)
  | (InstallState.installed, k) => (InstallState.installed, k)

/-- N successive `setup` calls. -/
def setup_iter : Nat → InstallState × Nat → InstallState × Nat
  | 0, s => s
  | n + 1, s => setup_iter n (setup_step s)

/-- The process panic hook after the installation body ran `k` times, each run
wrapping the current hook with `install_hook`, starting from a base hook. -/
def wrapped_hook (hub : Hub) (env : DumpEnv) (cur : Option Stacktrace)
    (fs : FileSystem) (base : PanicInfo → List Trace) :
    Nat → PanicInfo → List Trace
  | 0 => base
  | k + 1 => install_hook hub env cur fs (wrapped_hook hub env cur fs base k)

/-- Observable actions of the segmentation-fault signal handler. -/
inductive SigAction where
  | eprintln (s : String)
  | sigprocmask_unblock (sigs : List Int)
  | raise_panic (msg : String)
deriving DecidableEq

/-- Embeds `libc::sigemptyset`: the empty signal set. -/
def sigemptyset : List Int := []

/-- Embeds `libc::sigaddset`: add a signal number to a signal set. -/
def sigaddset (sigs : List Int) (signum : Int) : List Int :=
  sigs ++ [signum]

/-- Embeds `sigsegv_handler`: print a diagnostic line for the signal, unblock
exactly the triggering signal via `sigprocmask(SIG_UNBLOCK, ...)`, then raise
a panic with the fixed message. -/
def sigsegv_handler (signum : Int) : List SigAction :=
  let sigs := sigaddset sigemptyset signum
  [SigAction.eprintln ("received signal " ++ toString signum),
   SigAction.sigprocmask_unblock sigs,
   SigAction.raise_panic ("Segmentation fault!")]

/-- Helper: once installed, further `setup` calls leave the state unchanged. -/
lemma setup_iter_installed (m k : Nat) :
    setup_iter m (InstallState.installed, k) = (InstallState.installed, k) := by
  induction m with
  | zero => rfl
  | succ m ih => simpa [setup_iter, setup_step] using ih

/-- Helper: if every extractor in a list returns empty on the info, the
extractor loop over that list returns empty. -/
lemma runExtractors_all_none (exts : List PanicExtractor) (info : PanicInfo)
    (h : ∀ f ∈ exts, f info = none) : runExtractors exts info = none := by
  induction exts with
  | nil => rfl
  | cons f fs ih =>
    have hf : f info = none := h f (List.mem_cons_self f fs)
    have ht : ∀ g ∈ fs, g info = none := fun g hg => h g (List.mem_cons_of_mem f hg)
    simp [runExtractors, hf, ih ht]

/-- Helper: a prefix of extractors that all return empty is skipped by the
extractor loop. -/
lemma runExtractors_append (pre rest : List PanicExtractor) (info : PanicInfo)
    (h : ∀ f ∈ pre, f info = none) :
    runExtractors (pre ++ rest) info = runExtractors rest info := by
  induction pre with
  | nil => rfl
  | cons f fs ih =>
    have hf : f info = none := h f (List.mem_cons_self f fs)
    have ht : ∀ g ∈ fs, g info = none := fun g hg => h g (List.mem_cons_of_mem f hg)
    simp [runExtractors, hf, ih ht]

/-- Claim C1: setup invoked any N ≥ 1 times from the uninitialized state
performs the real installation exactly once; the state machine moves to
Installed on the first call and never transitions back; and with the single
resulting hook wrapping, one panic triggers exactly one run of the chained
integration handler, never N. -/
theorem setup_exactly_once (n : Nat) (hn : 1 ≤ n) (hub : Hub) (env : DumpEnv)
    (cur : Option Stacktrace) (fs : FileSystem) (info : PanicInfo) :
    setup_iter n (InstallState.uninitialized, 0) = (InstallState.installed, 1) ∧
    (∀ k, setup_step (InstallState.installed, k) = (InstallState.installed, k)) ∧
    (wrapped_hook hub env cur fs probe_hook
        (setup_iter n (InstallState.uninitialized, 0)).2 info).countP Trace.isCore = 1 := by
  obtain ⟨m, rfl⟩ := Nat.exists_eq_succ_of_ne_zero (Nat.one_le_iff_ne_zero.mp hn)
  have h1 : setup_iter (m + 1) (InstallState.uninitialized, 0) =
      (InstallState.installed, 1) := by
    simpa [setup_iter, setup_step] using setup_iter_installed m 1
  refine ⟨h1, fun k => rfl, ?_⟩
  rw [h1]
  simp [wrapped_hook, install_hook, probe_hook, List.countP_cons, Trace.isCore]

/-- Witness for C1 at N = 3. -/
theorem setup_exactly_once_witness :
    setup_iter 3 (InstallState.uninitialized, 0) = (InstallState.installed, 1) :=
  (setup_exactly_once 3 (by decide) ⟨none, false⟩ ⟨"", 0, false, none⟩ none []
    ⟨PanicPayload.other⟩).1

/-- Claim C2: the extractor chain is evaluated in registration order; the
first extractor returning a non-empty event short-circuits the chain (its
exact event is returned, later extractors and the default builder do not
contribute), and if every extractor returns empty the default-built event is
returned. -/
theorem event_from_panic_info_short_circuit (cur : Option Stacktrace)
    (info : PanicInfo) :
    (∀ (pre post : List PanicExtractor) (e : PanicExtractor) (ev : Event),
      (∀ f ∈ pre, f info = none) → e info = some ev →
      event_from_panic_info ⟨pre ++ e :: post⟩ cur info = ev) ∧
    (∀ exts : List PanicExtractor, (∀ f ∈ exts, f info = none) →
      event_from_panic_info ⟨exts⟩ cur info = default_panic_event cur info) := by
  constructor
  · intro pre post e ev hpre he
    simp [event_from_panic_info, runExtractors_append pre (e :: post) info hpre,
      runExtractors, he]
  · intro exts h
    simp [event_from_panic_info, runExtractors_all_none exts info h]

/-- Witness for C2: an empty-returning extractor followed by two non-empty
ones; the first non-empty result wins. -/
theorem event_from_panic_info_short_circuit_witness :
    event_from_panic_info
        ⟨[fun _ => none,
          fun _ => some { exception := [], level := Level.error },
          fun _ => some { exception := [], level := Level.warning }]⟩
        none ⟨PanicPayload.other⟩ =
      { exception := [], level := Level.error } := by
  have h := (event_from_panic_info_short_circuit none ⟨PanicPayload.other⟩).1
    [fun _ => none]
    [fun _ => some { exception := [], level := Level.warning }]
    (fun _ => some { exception := [], level := Level.error })
    { exception := [], level := Level.error }
    (by intro f hf; rw [List.mem_singleton] at hf; subst hf; rfl)
    rfl
  simpa using h

/-- Claim C3: message extraction is total and verbatim: a static-string or
owned-string payload yields that text verbatim, and every other payload shape
yields the fixed placeholder. -/
theorem message_from_panic_info_total_verbatim (info : PanicInfo) :
    (∀ s, info.payload = PanicPayload.staticStr s →
      message_from_panic_info info = s) ∧
    (∀ s, info.payload = PanicPayload.ownedString s →
      message_from_panic_info info = s) ∧
    (info.payload = PanicPayload.other →
      message_from_panic_info info = "Box<Any>") := by
  obtain ⟨p⟩ := info
  cases p <;> refine ⟨fun s h => ?_, fun s h => ?_, fun h => ?_⟩ <;>
    simp_all [message_from_panic_info]

/-- Witness for C3 at an owned-string payload. -/
theorem message_from_panic_info_total_verbatim_witness :
    message_from_panic_info ⟨PanicPayload.ownedString ("hello")⟩ = "hello" :=
  (message_from_panic_info_total_verbatim
    ⟨PanicPayload.ownedString ("hello")⟩).2.1 "hello" rfl

/-- Claim C4: when no extractor overrides, the built event has exactly one
exception entry, typed "panic", with mechanism type "panic" and
handled = false, whose value is the extracted message, and the event level is
fatal. -/
theorem default_event_shape (integ : PanicIntegration) (cur : Option Stacktrace)
    (info : PanicInfo) (h : ∀ f ∈ integ.extractors, f info = none) :
    ∃ exc : Exception,
      (event_from_panic_info integ cur info).exception = [exc] ∧
      exc.ty = "panic" ∧
      exc.mechanism = some { ty := "panic", handled := some false } ∧
      exc.value = some (message_from_panic_info info) ∧
      (event_from_panic_info integ cur info).level = Level.fatal := by
  have he : event_from_panic_info integ cur info = default_panic_event cur info := by
    simp [event_from_panic_info, runExtractors_all_none integ.extractors info h]
  refine ⟨{ ty := "panic",
            mechanism := some { ty := "panic", handled := some false },
            value := some (message_from_panic_info info),
            stacktrace := cur }, ?_, rfl, rfl, rfl, ?_⟩
  · rw [he]; rfl
  · rw [he]; rfl

/-- Witness for C4 at payload "boom" with no extractors registered:
the single exception has value "boom" and the level is fatal. -/
theorem default_event_shape_witness :
    ∃ exc : Exception,
      (event_from_panic_info ⟨[]⟩ none ⟨PanicPayload.staticStr ("boom")⟩).exception
        = [exc] ∧
      exc.ty = "panic" ∧
      exc.mechanism = some { ty := "panic", handled := some false } ∧
      exc.value = some ("boom") ∧
      (event_from_panic_info ⟨[]⟩ none ⟨PanicPayload.staticStr ("boom")⟩).level
        = Level.fatal := by
  have h := default_event_shape ⟨[]⟩ none ⟨PanicPayload.staticStr ("boom")⟩
    (by intro f hf; exact absurd hf (List.not_mem_nil f))
  simpa [message_from_panic_info] using h

/-- Claim C5: the hook installed by setup first runs the integration handler,
then invokes the previously registered hook exactly once with the original
panic info (observed through a probe standing for the previous hook). -/
theorem chained_hook_runs_prev_once (hub : Hub) (env : DumpEnv)
    (cur : Option Stacktrace) (fs : FileSystem) (info : PanicInfo) :
    (∀ next : PanicInfo → List Trace,
      (install_hook hub env cur fs next info).head? =
        some (Trace.core (panic_handler hub env cur fs info))) ∧
    install_hook hub env cur fs probe_hook info =
      [Trace.core (panic_handler hub env cur fs info), Trace.prev info] :=
  ⟨fun _ => rfl, rfl⟩

/-- Claim C6: when minidump capture fails (file creation error or dump-API
error), the handler still dispatches the built event, and that event carries
zero attachments. -/
theorem dump_failure_still_dispatches (hub : Hub) (integ : PanicIntegration)
    (env : DumpEnv) (cur : Option Stacktrace) (fs : FileSystem) (info : PanicInfo)
    (hi : hub.integration = some integ)
    (hfail : env.createOk = false ∨ env.dumpResult = none) :
    (panic_handler hub env cur fs info).captured =
      [{ event := event_from_panic_info integ cur info, attachments := [] }] := by
  have h2 : (write_minidump env fs).2 = none := by
    rcases hfail with hf | hf <;> cases hc : env.createOk <;>
      simp_all [write_minidump]
  simp [panic_handler, hi, h2]

/-- Witness for C6 with a failing file creation. -/
theorem dump_failure_still_dispatches_witness :
    (panic_handler ⟨some ⟨[]⟩, true⟩ ⟨"/tmp", 7, false, none⟩ none []
        ⟨PanicPayload.other⟩).captured =
      [{ event := event_from_panic_info ⟨[]⟩ none ⟨PanicPayload.other⟩,
         attachments := [] }] :=
  dump_failure_still_dispatches ⟨some ⟨[]⟩, true⟩ ⟨[]⟩ ⟨"/tmp", 7, false, none⟩
    none [] ⟨PanicPayload.other⟩ rfl (Or.inl rfl)

/-- Claim C7: when minidump capture succeeds, the dispatched event carries
exactly one attachment whose buffer equals the bytes written to the dump
file, whose filename is the temp-dir path `dump_<pid>.mdmp`, and whose type
tag is minidump; and the dump file remains on disk with those bytes. -/
theorem dump_success_single_attachment (hub : Hub) (integ : PanicIntegration)
    (env : DumpEnv) (cur : Option Stacktrace) (fs : FileSystem) (info : PanicInfo)
    (bytes : List Nat)
    (hi : hub.integration = some integ)
    (hok : env.createOk = true)
    (hdump : env.dumpResult = some bytes) :
    (panic_handler hub env cur fs info).captured =
      [{ event := event_from_panic_info integ cur info,
         attachments :=
           [{ buffer := bytes,
              filename := get_dump_fn env.temp_dir env.pid,
              ty := some AttachmentType.minidump }] }] ∧
    get_dump_fn env.temp_dir env.pid =
      env.temp_dir ++ "/dump_" ++ toString env.pid ++ ".mdmp" ∧
    fsRead (panic_handler hub env cur fs info).fs
      (get_dump_fn env.temp_dir env.pid) = some bytes := by
  have hw : write_minidump env fs =
      (fsWrite (fsWrite fs (get_dump_fn env.temp_dir env.pid) [])
        (get_dump_fn env.temp_dir env.pid) bytes,
       some (get_dump_fn env.temp_dir env.pid, bytes)) := by
    simp [write_minidump, hok, hdump]
  refine ⟨?_, rfl, ?_⟩
  · simp [panic_handler, hi, hw]
  · simp [panic_handler, hi, hw, fsWrite, fsRead]

/-- Witness for C7 with a concrete successful capture of bytes [1, 2, 3]. -/
theorem dump_success_single_attachment_witness :
    (panic_handler ⟨some ⟨[]⟩, true⟩ ⟨"/tmp", 42, true, some [1, 2, 3]⟩ none []
        ⟨PanicPayload.other⟩).captured =
      [{ event := event_from_panic_info ⟨[]⟩ none ⟨PanicPayload.other⟩,
         attachments :=
           [{ buffer := [1, 2, 3],
              filename := get_dump_fn ("/tmp") 42,
              ty := some AttachmentType.minidump }] }] ∧
    get_dump_fn ("/tmp") 42 = "/tmp" ++ "/dump_" ++ toString 42 ++ ".mdmp" ∧
    fsRead (panic_handler ⟨some ⟨[]⟩, true⟩ ⟨"/tmp", 42, true, some [1, 2, 3]⟩
        none [] ⟨PanicPayload.other⟩).fs (get_dump_fn ("/tmp") 42) =
      some [1, 2, 3] :=
  dump_success_single_attachment ⟨some ⟨[]⟩, true⟩ ⟨[]⟩
    ⟨"/tmp", 42, true, some [1, 2, 3]⟩ none [] ⟨PanicPayload.other⟩ [1, 2, 3]
    rfl rfl rfl

/-- Claim C8: the segmentation-violation handler performs, in order: emit the
diagnostic line for the received signal, unblock exactly the triggering
signal, then raise a panic with the fixed message. -/
theorem sigsegv_handler_steps (signum : Int) :
    sigsegv_handler signum =
      [SigAction.eprintln ("received signal " ++ toString signum),
       SigAction.sigprocmask_unblock [signum],
       SigAction.raise_panic ("Segmentation fault!")] :=
  rfl

/-- Claim C9: when no PanicIntegration is bound to the hub, panic_handler is
a no-op — the filesystem is untouched, no event is captured, no flush is
requested — while the chained previous hook is still invoked afterwards with
the original info. -/
theorem no_integration_noop (hub : Hub) (env : DumpEnv) (cur : Option Stacktrace)
    (fs : FileSystem) (info : PanicInfo)
    (h : hub.integration = none) :
    panic_handler hub env cur fs info =
      { fs := fs, captured := [], flushed := false } ∧
    install_hook hub env cur fs probe_hook info =
      [Trace.core { fs := fs, captured := [], flushed := false },
       Trace.prev info] := by
  have h1 : panic_handler hub env cur fs info =
      { fs := fs, captured := [], flushed := false } := by
    simp [panic_handler, h]
  exact ⟨h1, by simp [install_hook, probe_hook, h1]⟩

/-- Witness for C9 with a hub carrying a client but no integration. -/
theorem no_integration_noop_witness :
    panic_handler ⟨none, true⟩ ⟨"/tmp", 7, true, some [5]⟩ none []
        ⟨PanicPayload.other⟩ =
      { fs := [], captured := [], flushed := false } ∧
    install_hook ⟨none, true⟩ ⟨"/tmp", 7, true, some [5]⟩ none [] probe_hook
        ⟨PanicPayload.other⟩ =
      [Trace.core { fs := [], captured := [], flushed := false },
       Trace.prev ⟨PanicPayload.other⟩] :=
  no_integration_noop ⟨none, true⟩ ⟨"/tmp", 7, true, some [5]⟩ none []
    ⟨PanicPayload.other⟩ rfl

/-- Claim C10: the dump path is a deterministic function of the process
identity alone: two successful captures in the same process use the identical
path with no distinguishing suffix, so the second capture overwrites the
first dump file's contents. -/
theorem dump_path_deterministic_overwrite (env : DumpEnv) (fs : FileSystem)
    (b1 b2 : List Nat) (hok : env.createOk = true) :
    ∃ p, p = get_dump_fn env.temp_dir env.pid ∧
      (write_minidump { env with dumpResult := some b1 } fs).2 = some (p, b1) ∧
      (write_minidump { env with dumpResult := some b2 }
          (write_minidump { env with dumpResult := some b1 } fs).1).2 =
        some (p, b2) ∧
      fsRead (write_minidump { env with dumpResult := some b2 }
          (write_minidump { env with dumpResult := some b1 } fs).1).1 p =
        some b2 := by
  refine ⟨get_dump_fn env.temp_dir env.pid, rfl, ?_, ?_, ?_⟩ <;>
    simp [write_minidump, fsWrite, fsRead, hok]

/-- Witness for C10: two captures in process 7 hit the same path and the
second one's bytes win. -/
theorem dump_path_deterministic_overwrite_witness :
    ∃ p, p = get_dump_fn ("/tmp") 7 ∧
      (write_minidump { (⟨"/tmp", 7, true, none⟩ : DumpEnv) with
          dumpResult := some [0] } []).2 = some (p, [0]) ∧
      (write_minidump { (⟨"/tmp", 7, true, none⟩ : DumpEnv) with
          dumpResult := some [1] }
          (write_minidump { (⟨"/tmp", 7, true, none⟩ : DumpEnv) with
            dumpResult := some [0] } []).1).2 = some (p, [1]) ∧
      fsRead (write_minidump { (⟨"/tmp", 7, true, none⟩ : DumpEnv) with
          dumpResult := some [1] }
          (write_minidump { (⟨"/tmp", 7, true, none⟩ : DumpEnv) with
            dumpResult := some [0] } []).1).1 p = some [1] :=
  dump_path_deterministic_overwrite ⟨"/tmp", 7, true, none⟩ [] [0] [1] rfl

end SentryTauri
